import Mathlib

/-!
# Verification of the BagBuddy ROI calculators

Shallow embedding of the marketing-ROI calculators of the repository
(`src/brand/flyer_calculator.py`, `src/brand/digital_ads_calculator.py`,
`src/investor/roi_calculator.py`) and of the formula cells written by
`src/brand/export_excel_formulas.py`.

Modelling conventions:
* Python numbers are modelled as rationals (`ℚ`); Python `round(x, n)`
  (round half to even, to `n` decimal places) is `roundTo n`; Python
  `int(x)` (truncation toward zero) is `ratTruncToZero`.
* A `campaign_data` dictionary is modelled as a structure of optional
  entries, one per key the calculator reads; `dict.get(key, default)`
  becomes `Option.getD`.
* The linked-computation-sheet abstraction of the specification (cells,
  formula graph, topological evaluation) is not implemented anywhere in
  the repository; it is modelled from the specification where a claim
  needs it, and the concrete formula cells fed to it are transcribed
  from `export_excel_formulas.py`.
* Python `float` exponentiation (used only in the investor calculator's
  annualized return) is abstracted as a function parameter `fpow`; every
  property proved about that method holds for an arbitrary `fpow`.
* Dynamically-typed evaluation (needed to follow what the code does on a
  malformed, non-numeric input) is modelled separately in the `Dyn`
  namespace over a tagged value type mirroring Python `int`/`float`/`str`.
-/

/-- Python `round` rounds a value lying exactly halfway between two
integers to the even one; everywhere else it rounds to the nearest
integer. -/
def roundHalfEven (x : ℚ) : ℤ :=
  if Int.fract x = 1 / 2 then
    (if (⌊x⌋ % 2) = 0 then ⌊x⌋ else ⌊x⌋ + 1)
  else
    round x

/-- Python `round(x, n)`: round to `n` decimal places, ties to even. -/
def roundTo (n : ℕ) (x : ℚ) : ℚ :=
  (roundHalfEven (x * (10 : ℚ) ^ n) : ℚ) / (10 : ℚ) ^ n

/-- Python `int(x)` on a number: truncation toward zero. -/
def ratTruncToZero (x : ℚ) : ℤ :=
  if 0 ≤ x then ⌊x⌋ else -⌊-x⌋

namespace Flyer

/-- The entries of the `campaign_data` dictionary read by
`FlyerCampaignROICalculator`; a missing key is `none`. -/
structure CampaignData where
  num_flyers : Option ℚ := none
  print_cost_per_flyer : Option ℚ := none
  distribution_cost_per_flyer : Option ℚ := none
  response_rate_percent : Option ℚ := none
  conversion_rate_percent : Option ℚ := none
  avg_revenue_per_conversion : Option ℚ := none

def DEFAULT_PRINT_COST : ℚ := 0.12

def DEFAULT_DISTRIBUTION_COST : ℚ := 0.10

def DEFAULT_RESPONSE_RATE : ℚ := 0.8

def DEFAULT_CONVERSION_RATE : ℚ := 10.0

def calculate_num_flyers (d : CampaignData) : ℚ :=
  d.num_flyers.getD 0

def calculate_print_cost_per_flyer (d : CampaignData) : ℚ :=
  d.print_cost_per_flyer.getD DEFAULT_PRINT_COST

def calculate_distribution_cost_per_flyer (d : CampaignData) : ℚ :=
  d.distribution_cost_per_flyer.getD DEFAULT_DISTRIBUTION_COST

def calculate_total_print_cost (d : CampaignData) : ℚ :=
  roundTo 2 (calculate_num_flyers d * calculate_print_cost_per_flyer d)

def calculate_total_distribution_cost (d : CampaignData) : ℚ :=
  roundTo 2 (calculate_num_flyers d * calculate_distribution_cost_per_flyer d)

def calculate_campaign_cost (d : CampaignData) : ℚ :=
  roundTo 2 (calculate_total_print_cost d + calculate_total_distribution_cost d)

def calculate_total_impressions (d : CampaignData) : ℚ :=
  calculate_num_flyers d

def calculate_response_rate (d : CampaignData) : ℚ :=
  d.response_rate_percent.getD DEFAULT_RESPONSE_RATE

def calculate_responses (d : CampaignData) : ℤ :=
  ratTruncToZero (calculate_num_flyers d * (calculate_response_rate d / 100))

def calculate_conversion_rate (d : CampaignData) : ℚ :=
  d.conversion_rate_percent.getD DEFAULT_CONVERSION_RATE

def calculate_conversions (d : CampaignData) : ℤ :=
  ratTruncToZero ((calculate_responses d : ℚ) * (calculate_conversion_rate d / 100))

def calculate_avg_revenue_per_conversion (d : CampaignData) : ℚ :=
  d.avg_revenue_per_conversion.getD 0

def calculate_total_sales (d : CampaignData) : ℚ :=
  roundTo 2 ((calculate_conversions d : ℚ) * calculate_avg_revenue_per_conversion d)

def calculate_roi (d : CampaignData) : ℚ :=
  if calculate_campaign_cost d = 0 then 0
  else roundTo 2 ((calculate_total_sales d - calculate_campaign_cost d) /
    calculate_campaign_cost d * 100)

def calculate_cost_per_impression (d : CampaignData) : ℚ :=
  if calculate_total_impressions d = 0 then 0
  else roundTo 4 (calculate_campaign_cost d / calculate_total_impressions d)

def calculate_cost_per_response (d : CampaignData) : ℚ :=
  if calculate_responses d = 0 then 0
  else roundTo 2 (calculate_campaign_cost d / (calculate_responses d : ℚ))

def calculate_cost_per_conversion (d : CampaignData) : ℚ :=
  if calculate_conversions d = 0 then 0
  else roundTo 2 (calculate_campaign_cost d / (calculate_conversions d : ℚ))

def calculate_roas (d : CampaignData) : ℚ :=
  if calculate_campaign_cost d = 0 then 0
  else roundTo 2 (calculate_total_sales d / calculate_campaign_cost d)

/-- The dictionary returned by `get_full_report`, in source (insertion)
order; integer counts appear as their numeric values. -/
def get_full_report (d : CampaignData) : List (String × ℚ) :=
  [("num_flyers", calculate_num_flyers d),
   ("print_cost_per_flyer", calculate_print_cost_per_flyer d),
   ("distribution_cost_per_flyer", calculate_distribution_cost_per_flyer d),
   ("total_print_cost", calculate_total_print_cost d),
   ("total_distribution_cost", calculate_total_distribution_cost d),
   ("campaign_cost", calculate_campaign_cost d),
   ("total_impressions", calculate_total_impressions d),
   ("response_rate_percent", calculate_response_rate d),
   ("total_responses", (calculate_responses d : ℚ)),
   ("conversion_rate_percent", calculate_conversion_rate d),
   ("total_conversions", (calculate_conversions d : ℚ)),
   ("avg_revenue_per_conversion", calculate_avg_revenue_per_conversion d),
   ("total_sales", calculate_total_sales d),
   ("roi_percent", calculate_roi d),
   ("cost_per_impression", calculate_cost_per_impression d),
   ("cost_per_response", calculate_cost_per_response d),
   ("cost_per_conversion", calculate_cost_per_conversion d),
   ("roas", calculate_roas d)]

/-- The calculator object: `__init__` stores the campaign data and the
methods never write to `self`. -/
structure Calculator where
  campaign_data : CampaignData

/-- A call of `get_full_report` on the calculator object: it returns the
report together with the (unchanged) object state. -/
def get_full_report_state (c : Calculator) : List (String × ℚ) × Calculator :=
  (get_full_report c.campaign_data, c)

/-- `calculate_roi` seen as a function of the (already rounded) total
sales and campaign cost the sibling methods return. -/
def roi_from_parts (sales cost : ℚ) : ℚ :=
  if cost = 0 then 0 else roundTo 2 ((sales - cost) / cost * 100)

/-- Full-precision variant of the campaign cost, following the
specification's words (no intermediate rounding): print plus
distribution cost at full precision. -/
def campaign_cost_fullprecision (d : CampaignData) : ℚ :=
  calculate_num_flyers d * calculate_print_cost_per_flyer d +
    calculate_num_flyers d * calculate_distribution_cost_per_flyer d

/-- Full-precision variant of the total sales, following the
specification's words (no rounding before the value is consumed). -/
def total_sales_fullprecision (d : CampaignData) : ℚ :=
  (calculate_conversions d : ℚ) * calculate_avg_revenue_per_conversion d

/-- ROI computed from the unrounded cost and sales, rounded only at the
point the final result is displayed, following the specification's
"round only at display" policy. -/
def roi_fullprecision (d : CampaignData) : ℚ :=
  if campaign_cost_fullprecision d = 0 then 0
  else roundTo 2 ((total_sales_fullprecision d - campaign_cost_fullprecision d) /
    campaign_cost_fullprecision d * 100)

end Flyer

namespace DigitalAds

/-- The entries of the `campaign_data` dictionary read by
`DigitalAdsROICalculator`. -/
structure CampaignData where
  ad_budget : Option ℚ := none
  cpm : Option ℚ := none
  ctr_percent : Option ℚ := none
  conversion_rate_percent : Option ℚ := none
  avg_revenue_per_conversion : Option ℚ := none

def DEFAULT_CPM : ℚ := 10.00

def DEFAULT_CTR : ℚ := 1.0

def DEFAULT_CONVERSION_RATE : ℚ := 2.5

def calculate_campaign_cost (d : CampaignData) : ℚ :=
  d.ad_budget.getD 0

def calculate_cpm (d : CampaignData) : ℚ :=
  d.cpm.getD DEFAULT_CPM

def calculate_total_impressions (d : CampaignData) : ℤ :=
  if calculate_cpm d = 0 then 0
  else ratTruncToZero (calculate_campaign_cost d / calculate_cpm d * 1000)

def calculate_ctr (d : CampaignData) : ℚ :=
  d.ctr_percent.getD DEFAULT_CTR

def calculate_total_clicks (d : CampaignData) : ℤ :=
  ratTruncToZero ((calculate_total_impressions d : ℚ) * (calculate_ctr d / 100))

def calculate_conversion_rate (d : CampaignData) : ℚ :=
  d.conversion_rate_percent.getD DEFAULT_CONVERSION_RATE

def calculate_conversions (d : CampaignData) : ℤ :=
  ratTruncToZero ((calculate_total_clicks d : ℚ) * (calculate_conversion_rate d / 100))

def calculate_avg_revenue_per_conversion (d : CampaignData) : ℚ :=
  d.avg_revenue_per_conversion.getD 0

def calculate_total_sales (d : CampaignData) : ℚ :=
  roundTo 2 ((calculate_conversions d : ℚ) * calculate_avg_revenue_per_conversion d)

def calculate_roi (d : CampaignData) : ℚ :=
  if calculate_campaign_cost d = 0 then 0
  else roundTo 2 ((calculate_total_sales d - calculate_campaign_cost d) /
    calculate_campaign_cost d * 100)

def calculate_cost_per_click (d : CampaignData) : ℚ :=
  if calculate_total_clicks d = 0 then 0
  else roundTo 2 (calculate_campaign_cost d / (calculate_total_clicks d : ℚ))

def calculate_cost_per_conversion (d : CampaignData) : ℚ :=
  if calculate_conversions d = 0 then 0
  else roundTo 2 (calculate_campaign_cost d / (calculate_conversions d : ℚ))

def calculate_roas (d : CampaignData) : ℚ :=
  if calculate_campaign_cost d = 0 then 0
  else roundTo 2 (calculate_total_sales d / calculate_campaign_cost d)

/-- The dictionary returned by `get_full_report`, in source order. -/
def get_full_report (d : CampaignData) : List (String × ℚ) :=
  [("campaign_cost", calculate_campaign_cost d),
   ("cpm", calculate_cpm d),
   ("ctr_percent", calculate_ctr d),
   ("conversion_rate_percent", calculate_conversion_rate d),
   ("total_impressions", (calculate_total_impressions d : ℚ)),
   ("total_clicks", (calculate_total_clicks d : ℚ)),
   ("total_conversions", (calculate_conversions d : ℚ)),
   ("avg_revenue_per_conversion", calculate_avg_revenue_per_conversion d),
   ("total_sales", calculate_total_sales d),
   ("roi_percent", calculate_roi d),
   ("cost_per_click", calculate_cost_per_click d),
   ("cost_per_conversion", calculate_cost_per_conversion d),
   ("roas", calculate_roas d)]

/-- The calculator object; its methods never write to `self`. -/
structure Calculator where
  campaign_data : CampaignData

/-- A call of `get_full_report` on the calculator object. -/
def get_full_report_state (c : Calculator) : List (String × ℚ) × Calculator :=
  (get_full_report c.campaign_data, c)

end DigitalAds

namespace Investor

/-- The entries of the `investment_data` dictionary read by
`InvestorROICalculator`. -/
structure InvestmentData where
  initial_investment : Option ℚ := none
  current_value : Option ℚ := none
  investment_period_years : Option ℚ := none

def get_initial_investment (d : InvestmentData) : ℚ :=
  d.initial_investment.getD 0

def get_current_value (d : InvestmentData) : ℚ :=
  d.current_value.getD 0

def get_investment_period_years (d : InvestmentData) : ℚ :=
  d.investment_period_years.getD 1

def calculate_roi (d : InvestmentData) : ℚ :=
  if get_initial_investment d = 0 then 0
  else roundTo 2 ((get_current_value d - get_initial_investment d) /
    get_initial_investment d * 100)

/-- `calculate_annualized_return`; Python float exponentiation
`x ** (1 / years)` is abstracted by the parameter `fpow`, so everything
proved here holds for any exponentiation semantics. -/
def calculate_annualized_return (fpow : ℚ → ℚ → ℚ) (d : InvestmentData) : ℚ :=
  if get_initial_investment d = 0 ∨ get_investment_period_years d = 0 then 0
  else roundTo 2 ((fpow (get_current_value d / get_initial_investment d)
    (1 / get_investment_period_years d) - 1) * 100)

def calculate_irr (cash_flows : List ℚ) : ℚ :=
  if cash_flows = [] ∨ cash_flows.length < 2 then 0
  else roundTo 2 10.0

def calculate_multiple_on_invested_capital (d : InvestmentData) : ℚ :=
  if get_initial_investment d = 0 then 0
  else roundTo 2 (get_current_value d / get_initial_investment d)

def calculate_profit_margin (d : InvestmentData) : ℚ :=
  if get_current_value d = 0 then 0
  else roundTo 2 ((get_current_value d - get_initial_investment d) /
    get_current_value d * 100)

end Investor

namespace Sheet

/-!
## Linked computation sheet

Modelled from the spec: the repository has no formula-graph engine of
its own (the Excel exporter only writes formula strings for Excel to
evaluate), so the Cell Store / Formula Graph Resolver / Evaluator of
spec sections 3 and 4 are modelled here from the specification's words:
cells are literals or formula expressions over cell references, the
evaluation order is a Kahn-style topological sort, a cycle is a fatal
`cyclicDependencyError` with no partial evaluation, division by zero
evaluates to `0`, and the Excel `INT` function takes the floor.  The
concrete cell contents fed to this model are transcribed from
`create_formula_based_excel` in `src/brand/export_excel_formulas.py`. -/

/-- A cell address. -/
abbrev Addr := String

/-- A formula expression over cell references, with the operators the
exported workbook uses. -/
inductive Expr where
  | lit : ℚ → Expr
  | ref : Addr → Expr
  | add : Expr → Expr → Expr
  | sub : Expr → Expr → Expr
  | mul : Expr → Expr → Expr
  | div : Expr → Expr → Expr
  | excelInt : Expr → Expr
  | ifEq0 : Expr → Expr → Expr → Expr

/-- The cell references occurring in an expression. -/
def Expr.refList : Expr → List Addr
  | .lit _ => []
  | .ref a => [a]
  | .add a b => a.refList ++ b.refList
  | .sub a b => a.refList ++ b.refList
  | .mul a b => a.refList ++ b.refList
  | .div a b => a.refList ++ b.refList
  | .excelInt e => e.refList
  | .ifEq0 c a b => c.refList ++ a.refList ++ b.refList

/-- Evaluate an expression against resolved cell values.  Division by a
zero denominator evaluates to `0` (spec 4.3); `INT` is the floor. -/
def Expr.evalWith (env : Addr → ℚ) : Expr → ℚ
  | .lit q => q
  | .ref a => env a
  | .add a b => a.evalWith env + b.evalWith env
  | .sub a b => a.evalWith env - b.evalWith env
  | .mul a b => a.evalWith env * b.evalWith env
  | .div a b =>
      if b.evalWith env = 0 then 0 else a.evalWith env / b.evalWith env
  | .excelInt e => (⌊e.evalWith env⌋ : ℚ)
  | .ifEq0 c a b =>
      if c.evalWith env = 0 then a.evalWith env else b.evalWith env

/-- A cell holds a literal input or a formula. -/
inductive CellKind where
  | literal : ℚ → CellKind
  | formula : Expr → CellKind

/-- The references a cell depends on. -/
def cellRefs : CellKind → List Addr
  | .literal _ => []
  | .formula e => e.refList

/-- Association lookup by cell address. -/
def assocFind {α : Type} : List (Addr × α) → Addr → Option α
  | [], _ => none
  | (b, x) :: t, a => if a = b then some x else assocFind t a

/-- The dependencies of the cell at `a` in the sheet `defs`. -/
def refsIn (defs : List (Addr × CellKind)) (a : Addr) : List Addr :=
  match assocFind defs a with
  | some k => cellRefs k
  | none => []

/-- Graph-build failure: the formulas form a cycle. -/
inductive BuildError where
  | cyclicDependencyError : BuildError
deriving DecidableEq

/-- A cell is ready once none of its dependencies is still waiting. -/
def removable (defs : List (Addr × CellKind)) (remaining : List Addr)
    (a : Addr) : Bool :=
  (refsIn defs a).all (fun b => decide (b ∉ remaining))

/-- The cells of `remaining` that are ready in this round. -/
def readyOf (defs : List (Addr × CellKind)) (remaining : List Addr) : List Addr :=
  remaining.filter (removable defs remaining)

/-- The cells still waiting after this round. -/
def nextRemaining (defs : List (Addr × CellKind)) (remaining : List Addr) :
    List Addr :=
  remaining.filter (fun a => decide (a ∉ readyOf defs remaining))

/-- Kahn-style topological sort: repeatedly emit the cells whose
dependencies are all resolved; if a round makes no progress the graph
has a cycle and the whole build fails. -/
def kahnAux (defs : List (Addr × CellKind)) :
    ℕ → List Addr → Except BuildError (List Addr)
  | 0, [] => .ok []
  | 0, _ :: _ => .error .cyclicDependencyError
  | _ + 1, [] => .ok []
  | fuel + 1, x :: xs =>
      if (readyOf defs (x :: xs)).isEmpty then .error .cyclicDependencyError
      else
        match kahnAux defs fuel (nextRemaining defs (x :: xs)) with
        | .ok rest => .ok (readyOf defs (x :: xs) ++ rest)
        | .error e => .error e

/-- Evaluation order for the whole sheet, or a cycle error. -/
def topoOrder (defs : List (Addr × CellKind)) : Except BuildError (List Addr) :=
  kahnAux defs (defs.map Prod.fst).length (defs.map Prod.fst)

/-- Resolve one cell against the values already computed. -/
def evalCell (defs : List (Addr × CellKind)) (acc : List (Addr × ℚ))
    (a : Addr) : List (Addr × ℚ) :=
  match assocFind defs a with
  | some (.literal q) => acc ++ [(a, q)]
  | some (.formula e) => acc ++ [(a, e.evalWith (fun b => (assocFind acc b).getD 0))]
  | none => acc

/-- Build and evaluate a report: compute the evaluation order, then
resolve every cell along it; a cyclic sheet fails with no cell value
populated. -/
def buildReport (defs : List (Addr × CellKind)) :
    Except BuildError (List (Addr × ℚ)) :=
  match topoOrder defs with
  | .ok order => .ok (order.foldl (evalCell defs) [])
  | .error e => .error e

/-- The computed value of one cell of a successfully built report. -/
def reportValue (defs : List (Addr × CellKind)) (a : Addr) : Option ℚ :=
  match buildReport defs with
  | .ok vals => assocFind vals a
  | .error _ => none

/-- The assumption cells and the Campaign Cost / Total Bags / QR Code
Scans formula cells of the "ROI Calculator" sheet (conservative
scenario column), transcribed from `create_formula_based_excel`:
literal defaults from the editable-assumption block, formulas from the
calculated-results block. -/
def roiCalculatorCells : List (Addr × CellKind) :=
  [("cost_per_slot", .literal 0.15),
   ("bags_per_quarter", .literal 5000),
   ("slots_per_bag", .literal 8),
   ("impressions_per_bag", .literal 5),
   ("num_quarters", .literal 1),
   ("avg_revenue", .literal 25),
   ("scan_rate_cons", .literal 2.0),
   ("conv_rate_cons", .literal 20.0),
   ("campaign_cost",
     .formula (.mul (.mul (.ref "cost_per_slot") (.ref "bags_per_quarter"))
       (.ref "num_quarters"))),
   ("total_bags",
     .formula (.mul (.ref "bags_per_quarter") (.ref "num_quarters"))),
   ("qr_scans",
     .formula (.excelInt (.div (.mul (.ref "total_bags") (.ref "scan_rate_cons"))
       (.lit 100))))]

/-- The revenue and ROI formula cells of the workbook (`Total Revenue`
`= conversions * avg_revenue` and `ROI` `= IF(cost=0, 0,
(revenue-cost)/cost*100)`), instantiated at the scenario of the spec's
ROI round-trip: conversions 20, average revenue 25, campaign cost 750. -/
def roiScenarioCells : List (Addr × CellKind) :=
  [("conversions", .literal 20),
   ("avg_revenue", .literal 25),
   ("campaign_cost", .literal 750),
   ("revenue", .formula (.mul (.ref "conversions") (.ref "avg_revenue"))),
   ("roi_cell",
     .formula (.ifEq0 (.ref "campaign_cost") (.lit 0)
       (.mul (.div (.sub (.ref "revenue") (.ref "campaign_cost"))
         (.ref "campaign_cost")) (.lit 100))))]

end Sheet

namespace Dyn

/-!
## Dynamically-typed evaluation

Python values are dynamically typed; the flyer calculator performs no
validation of its `campaign_data`, so a non-numeric entry is detected
only when an arithmetic operation first touches it.  This namespace
re-embeds the start of the flyer pipeline over tagged Python values to
follow that behaviour exactly. -/

/-- A Python value as the calculators see it: an `int`, a `float` or a
`str`. -/
inductive PyVal where
  | intV : ℤ → PyVal
  | floatV : ℚ → PyVal
  | strV : String → PyVal
deriving DecidableEq

/-- A Python dictionary with string keys. -/
abbrev PyDict := List (String × PyVal)

/-- `dict.get(key, default)`. -/
def dictGet (d : PyDict) (k : String) (dflt : PyVal) : PyVal :=
  (d.lookup k).getD dflt

/-- The runtime error Python raises on an ill-typed operation. -/
inductive PyError where
  | typeError : PyError
deriving DecidableEq

/-- Python `s * n` for a string and an `int`. -/
def strRepeat (s : String) (n : ℤ) : String :=
  String.join (List.replicate n.toNat s)

/-- Python multiplication over dynamic values: number times number
multiplies, string times `int` repeats, anything else raises
`TypeError`. -/
def pyMul : PyVal → PyVal → Except PyError PyVal
  | .intV a, .intV b => .ok (.intV (a * b))
  | .intV a, .floatV b => .ok (.floatV ((a : ℚ) * b))
  | .floatV a, .intV b => .ok (.floatV (a * (b : ℚ)))
  | .floatV a, .floatV b => .ok (.floatV (a * b))
  | .strV s, .intV n => .ok (.strV (strRepeat s n))
  | .intV n, .strV s => .ok (.strV (strRepeat s n))
  | _, _ => .error .typeError

/-- Python `round(x, 2)` over dynamic values: numbers round, a string
raises `TypeError`. -/
def pyRound2 : PyVal → Except PyError PyVal
  | .intV n => .ok (.intV n)
  | .floatV q => .ok (.floatV (roundTo 2 q))
  | .strV _ => .error .typeError

/-- The calculator object holding the raw dictionary. -/
structure FlyerCalculator where
  campaign_data : PyDict

/-- `FlyerCampaignROICalculator.__init__`: stores the dictionary
unchanged; it performs no validation and cannot fail. -/
def initFlyerCalculator (d : PyDict) : FlyerCalculator :=
  ⟨d⟩

/-- `calculate_num_flyers` over dynamic values. -/
def calculate_num_flyers (c : FlyerCalculator) : PyVal :=
  dictGet c.campaign_data "num_flyers" (.intV 0)

/-- `calculate_print_cost_per_flyer` over dynamic values (the default
print cost is the float `0.12`). -/
def calculate_print_cost_per_flyer (c : FlyerCalculator) : PyVal :=
  dictGet c.campaign_data "print_cost_per_flyer" (.floatV 0.12)

/-- `calculate_total_print_cost` over dynamic values: the first metric
computation that multiplies the raw `num_flyers` entry. -/
def calculate_total_print_cost (c : FlyerCalculator) : Except PyError PyVal := do
  let t ← pyMul (calculate_num_flyers c) (calculate_print_cost_per_flyer c)
  pyRound2 t

/-- A malformed campaign dictionary: a string where the numeric
`num_flyers` literal is expected. -/
def malformedData : PyDict :=
  [("num_flyers", .strV "5000"), ("avg_revenue_per_conversion", .intV 25)]

end Dyn

/-! ## Helper lemmas -/

theorem roundTo_zero (n : ℕ) : roundTo n 0 = 0 := by
  norm_num [roundTo, roundHalfEven, Int.fract]

theorem ratTruncToZero_zero : ratTruncToZero 0 = 0 := by
  norm_num [ratTruncToZero]

namespace Sheet

/-- Cells lying on a reference cycle are never ready, so a Kahn pass
over any set of cells containing the cycle makes no progress on it and
the sort ends in a `cyclicDependencyError`.  The cycle is presented as
a nonempty set `S` of addresses together with a successor map `f`
choosing, for each cell of `S`, a reference of that cell that is again
in `S`. -/
theorem kahnAux_stuck_of_cycle (defs : List (Addr × CellKind)) (S : List Addr)
    (f : Addr → Addr) (hS : S ≠ [])
    (hcl : ∀ a ∈ S, f a ∈ S ∧ f a ∈ refsIn defs a) :
    ∀ (fuel : ℕ) (remaining : List Addr), (∀ a ∈ S, a ∈ remaining) →
      kahnAux defs fuel remaining = .error .cyclicDependencyError := by
  intro fuel
  induction fuel with
  | zero =>
    intro remaining hsub
    obtain ⟨a, ha⟩ := List.exists_mem_of_ne_nil S hS
    cases remaining with
    | nil => exact absurd (hsub a ha) (List.not_mem_nil a)
    | cons x xs => rfl
  | succ n ih =>
    intro remaining hsub
    obtain ⟨a, ha⟩ := List.exists_mem_of_ne_nil S hS
    cases remaining with
    | nil => exact absurd (hsub a ha) (List.not_mem_nil a)
    | cons x xs =>
      have hnotready : ∀ b ∈ S, b ∉ readyOf defs (x :: xs) := by
        intro b hb hmem
        have h2 := (List.mem_filter.mp hmem).2
        simp only [removable] at h2
        obtain ⟨hfS, hfref⟩ := hcl b hb
        have h3 := List.all_eq_true.mp h2 (f b) hfref
        exact (of_decide_eq_true h3) (hsub (f b) hfS)
      by_cases hE : (readyOf defs (x :: xs)).isEmpty
      · simp only [kahnAux, if_pos hE]
      · have hsub2 : ∀ b ∈ S, b ∈ nextRemaining defs (x :: xs) := by
          intro b hb
          exact List.mem_filter.mpr ⟨hsub b hb, decide_eq_true (hnotready b hb)⟩
        have hrec := ih (nextRemaining defs (x :: xs)) hsub2
        simp only [kahnAux, if_neg hE, hrec]

end Sheet

/-! ## Claims -/

/-- C1: every ratio metric with a zero denominator evaluates to exactly 0
(and, the embedded calculators being total functions, no
division-by-zero exception is possible): the flyer and digital-ads
`calculate_roi` and `calculate_roas` return 0 when the campaign cost is
0, their `calculate_cost_per_conversion` returns 0 when the conversions
are 0, the digital-ads `calculate_cost_per_click` returns 0 when the
clicks are 0, and the investor `calculate_roi`,
`calculate_annualized_return`, `calculate_multiple_on_invested_capital`
and `calculate_profit_margin` return 0 when their respective
denominator input is 0 — for any campaign/investment data and any
exponentiation semantics. -/
theorem c1_zero_denominators :
    ∀ (fd : Flyer.CampaignData) (dd : DigitalAds.CampaignData)
      (vd : Investor.InvestmentData) (fpow : ℚ → ℚ → ℚ),
    (Flyer.calculate_campaign_cost fd = 0 →
      Flyer.calculate_roi fd = 0 ∧ Flyer.calculate_roas fd = 0) ∧
    (Flyer.calculate_conversions fd = 0 → Flyer.calculate_cost_per_conversion fd = 0) ∧
    (DigitalAds.calculate_campaign_cost dd = 0 →
      DigitalAds.calculate_roi dd = 0 ∧ DigitalAds.calculate_roas dd = 0) ∧
    (DigitalAds.calculate_conversions dd = 0 →
      DigitalAds.calculate_cost_per_conversion dd = 0) ∧
    (DigitalAds.calculate_total_clicks dd = 0 → DigitalAds.calculate_cost_per_click dd = 0) ∧
    (Investor.get_initial_investment vd = 0 →
      Investor.calculate_roi vd = 0 ∧
        Investor.calculate_multiple_on_invested_capital vd = 0 ∧
        Investor.calculate_annualized_return fpow vd = 0) ∧
    (Investor.get_investment_period_years vd = 0 →
      Investor.calculate_annualized_return fpow vd = 0) ∧
    (Investor.get_current_value vd = 0 → Investor.calculate_profit_margin vd = 0) := by
  intro fd dd vd fpow
  refine ⟨fun h => ⟨?_, ?_⟩, fun h => ?_, fun h => ⟨?_, ?_⟩, fun h => ?_, fun h => ?_,
    fun h => ⟨?_, ?_, ?_⟩, fun h => ?_, fun h => ?_⟩ <;>
  simp [Flyer.calculate_roi, Flyer.calculate_roas, Flyer.calculate_cost_per_conversion,
    DigitalAds.calculate_roi, DigitalAds.calculate_roas,
    DigitalAds.calculate_cost_per_conversion, DigitalAds.calculate_cost_per_click,
    Investor.calculate_roi, Investor.calculate_multiple_on_invested_capital,
    Investor.calculate_annualized_return, Investor.calculate_profit_margin, h]

/-- C1 witness: at the empty flyer and ads dictionaries every campaign
denominator is 0, and at an investment dictionary with a zero period
every investor denominator is 0; every guarded metric evaluates to 0. -/
theorem c1_zero_denominators_witness :
    Flyer.calculate_roi {} = 0 ∧ Flyer.calculate_roas {} = 0 ∧
      Flyer.calculate_cost_per_conversion {} = 0 ∧
      DigitalAds.calculate_roi {} = 0 ∧ DigitalAds.calculate_roas {} = 0 ∧
      DigitalAds.calculate_cost_per_conversion {} = 0 ∧
      DigitalAds.calculate_cost_per_click {} = 0 ∧
      Investor.calculate_roi ⟨none, none, some 0⟩ = 0 ∧
      Investor.calculate_multiple_on_invested_capital ⟨none, none, some 0⟩ = 0 ∧
      Investor.calculate_annualized_return (fun a _ => a) ⟨none, none, some 0⟩ = 0 ∧
      Investor.calculate_profit_margin ⟨none, none, some 0⟩ = 0 := by
  obtain ⟨h1, h2, h3, h4, h5, h6, h7, h8⟩ :=
    c1_zero_denominators {} {} ⟨none, none, some 0⟩ (fun a _ => a)
  have hfc : Flyer.calculate_campaign_cost {} = 0 := by
    norm_num [Flyer.calculate_campaign_cost, Flyer.calculate_total_print_cost,
      Flyer.calculate_total_distribution_cost, Flyer.calculate_num_flyers,
      Flyer.calculate_print_cost_per_flyer, Flyer.calculate_distribution_cost_per_flyer,
      roundTo_zero]
  have hfv : Flyer.calculate_conversions {} = 0 := by
    norm_num [Flyer.calculate_conversions, Flyer.calculate_responses,
      Flyer.calculate_num_flyers, Flyer.calculate_response_rate,
      Flyer.calculate_conversion_rate, ratTruncToZero_zero]
  have hdc : DigitalAds.calculate_campaign_cost {} = 0 := by
    simp [DigitalAds.calculate_campaign_cost]
  have hdk : DigitalAds.calculate_total_clicks {} = 0 := by
    norm_num [DigitalAds.calculate_total_clicks, DigitalAds.calculate_total_impressions,
      DigitalAds.calculate_campaign_cost, DigitalAds.calculate_cpm, DigitalAds.calculate_ctr,
      DigitalAds.DEFAULT_CPM, ratTruncToZero_zero]
  have hdv : DigitalAds.calculate_conversions {} = 0 := by
    norm_num [DigitalAds.calculate_conversions, DigitalAds.calculate_total_clicks,
      DigitalAds.calculate_total_impressions, DigitalAds.calculate_campaign_cost,
      DigitalAds.calculate_cpm, DigitalAds.calculate_ctr,
      DigitalAds.calculate_conversion_rate, DigitalAds.DEFAULT_CPM, ratTruncToZero_zero]
  have hvi : Investor.get_initial_investment ⟨none, none, some 0⟩ = 0 := by
    simp [Investor.get_initial_investment]
  have hvy : Investor.get_investment_period_years ⟨none, none, some 0⟩ = 0 := by
    simp [Investor.get_investment_period_years]
  have hvc : Investor.get_current_value ⟨none, none, some 0⟩ = 0 := by
    simp [Investor.get_current_value]
  exact ⟨(h1 hfc).1, (h1 hfc).2, h2 hfv, (h3 hdc).1, (h3 hdc).2, h4 hdv, h5 hdk,
    (h6 hvi).1, (h6 hvi).2.1, h7 hvy, h8 hvc⟩

/-- C2 counterexample: intermediate 2-decimal rounding does change the
final ROI.  At `num_flyers = 1`, print and distribution cost `0.5`
each, 100% response and conversion rates and an average revenue of
`0.004` per conversion, the code's `calculate_roi` (which consumes the
rounded `total_sales = 0.0` and `campaign_cost = 1.0`) returns `-100.0`
while the ROI computed from the unrounded products (`0.004` and `1.0`)
is `-99.6`. -/
theorem c2_rounding_changes_roi_counterexample :
    Flyer.calculate_roi ⟨some 1, some 0.5, some 0.5, some 100, some 100, some 0.004⟩ ≠
      Flyer.roi_fullprecision ⟨some 1, some 0.5, some 0.5, some 100, some 100, some 0.004⟩ := by
  norm_num [Flyer.calculate_roi, Flyer.roi_fullprecision, Flyer.campaign_cost_fullprecision,
    Flyer.total_sales_fullprecision, Flyer.calculate_total_sales, Flyer.calculate_campaign_cost,
    Flyer.calculate_total_print_cost, Flyer.calculate_total_distribution_cost,
    Flyer.calculate_num_flyers, Flyer.calculate_print_cost_per_flyer,
    Flyer.calculate_distribution_cost_per_flyer, Flyer.calculate_responses,
    Flyer.calculate_response_rate, Flyer.calculate_conversions, Flyer.calculate_conversion_rate,
    Flyer.calculate_avg_revenue_per_conversion, roundTo, roundHalfEven, ratTruncToZero,
    Int.fract, round_eq]

/-- C2 (amended): each monetary method returns a value already rounded
to 2 decimal places, and `calculate_roi` consumes exactly those rounded
values — its result is the ROI formula applied to the rounded
`calculate_total_sales` and `calculate_campaign_cost` returns (so
intermediate rounding can change the final ROI relative to a
full-precision evaluation, as the counterexample shows). -/
theorem c2_roi_consumes_rounded_values :
    ∀ d : Flyer.CampaignData,
      Flyer.calculate_roi d =
        Flyer.roi_from_parts (Flyer.calculate_total_sales d) (Flyer.calculate_campaign_cost d) :=
  fun _ => rfl

/-- C3: `get_full_report` is deterministic and idempotent — a call
returns the calculator state unchanged, and a second call on that
returned state produces the identical report dictionary. -/
theorem c3_full_report_idempotent :
    ∀ (c : Flyer.Calculator) (c2 : DigitalAds.Calculator),
      (Flyer.get_full_report_state c).2 = c ∧
      (Flyer.get_full_report_state ((Flyer.get_full_report_state c).2)).1 =
        (Flyer.get_full_report_state c).1 ∧
      (DigitalAds.get_full_report_state c2).2 = c2 ∧
      (DigitalAds.get_full_report_state ((DigitalAds.get_full_report_state c2).2)).1 =
        (DigitalAds.get_full_report_state c2).1 :=
  fun _ _ => ⟨rfl, rfl, rfl, rfl⟩

/-- C3 witness: the two successive report calls coincide at a concrete
calculator. -/
theorem c3_full_report_idempotent_witness :
    (Flyer.get_full_report_state
        ((Flyer.get_full_report_state ⟨⟨some 5000, none, none, none, none, some 25⟩⟩).2)).1 =
      (Flyer.get_full_report_state ⟨⟨some 5000, none, none, none, none, some 25⟩⟩).1 :=
  (c3_full_report_idempotent ⟨⟨some 5000, none, none, none, none, some 25⟩⟩ ⟨{}⟩).2.1

/-- C4: changing only the `avg_revenue_per_conversion` entry of a flyer
campaign dictionary and recomputing leaves every metric that does not
depend on it unchanged (`num_flyers`, the two per-flyer costs,
`total_print_cost`, `total_distribution_cost`, `campaign_cost`,
`total_impressions`, `total_responses`, `total_conversions`,
`cost_per_impression`, `cost_per_response`, `cost_per_conversion`), and
recomputes exactly the dependent metrics from the new value: the stored
average revenue becomes the new value, `total_sales` is the conversion
count times the new value (rounded), and `roi_percent` and `roas` are
their formulas applied to the new `total_sales` and the old
`campaign_cost`. -/
theorem c4_avg_revenue_frame :
    ∀ (d : Flyer.CampaignData) (v : ℚ),
      Flyer.calculate_num_flyers { d with avg_revenue_per_conversion := some v } =
        Flyer.calculate_num_flyers d ∧
      Flyer.calculate_print_cost_per_flyer { d with avg_revenue_per_conversion := some v } =
        Flyer.calculate_print_cost_per_flyer d ∧
      Flyer.calculate_distribution_cost_per_flyer { d with avg_revenue_per_conversion := some v } =
        Flyer.calculate_distribution_cost_per_flyer d ∧
      Flyer.calculate_total_print_cost { d with avg_revenue_per_conversion := some v } =
        Flyer.calculate_total_print_cost d ∧
      Flyer.calculate_total_distribution_cost { d with avg_revenue_per_conversion := some v } =
        Flyer.calculate_total_distribution_cost d ∧
      Flyer.calculate_campaign_cost { d with avg_revenue_per_conversion := some v } =
        Flyer.calculate_campaign_cost d ∧
      Flyer.calculate_total_impressions { d with avg_revenue_per_conversion := some v } =
        Flyer.calculate_total_impressions d ∧
      Flyer.calculate_responses { d with avg_revenue_per_conversion := some v } =
        Flyer.calculate_responses d ∧
      Flyer.calculate_conversions { d with avg_revenue_per_conversion := some v } =
        Flyer.calculate_conversions d ∧
      Flyer.calculate_cost_per_impression { d with avg_revenue_per_conversion := some v } =
        Flyer.calculate_cost_per_impression d ∧
      Flyer.calculate_cost_per_response { d with avg_revenue_per_conversion := some v } =
        Flyer.calculate_cost_per_response d ∧
      Flyer.calculate_cost_per_conversion { d with avg_revenue_per_conversion := some v } =
        Flyer.calculate_cost_per_conversion d ∧
      Flyer.calculate_avg_revenue_per_conversion { d with avg_revenue_per_conversion := some v } =
        v ∧
      Flyer.calculate_total_sales { d with avg_revenue_per_conversion := some v } =
        roundTo 2 ((Flyer.calculate_conversions d : ℚ) * v) ∧
      Flyer.calculate_roi { d with avg_revenue_per_conversion := some v } =
        Flyer.roi_from_parts
          (Flyer.calculate_total_sales { d with avg_revenue_per_conversion := some v })
          (Flyer.calculate_campaign_cost d) ∧
      Flyer.calculate_roas { d with avg_revenue_per_conversion := some v } =
        (if Flyer.calculate_campaign_cost d = 0 then 0
         else roundTo 2
           (Flyer.calculate_total_sales { d with avg_revenue_per_conversion := some v } /
             Flyer.calculate_campaign_cost d)) :=
  fun _ _ => ⟨rfl, rfl, rfl, rfl, rfl, rfl, rfl, rfl, rfl, rfl, rfl, rfl, rfl, rfl, rfl, rfl⟩

/-- C5: every rate-derived count metric is the truncation toward zero of
its defining product — flyer responses and conversions, and digital-ads
impressions (budget over CPM times 1000), clicks and conversions. -/
theorem c5_counts_truncate_toward_zero :
    ∀ (fd : Flyer.CampaignData) (dd : DigitalAds.CampaignData),
      Flyer.calculate_responses fd =
        ratTruncToZero (Flyer.calculate_num_flyers fd * (Flyer.calculate_response_rate fd / 100)) ∧
      Flyer.calculate_conversions fd =
        ratTruncToZero ((Flyer.calculate_responses fd : ℚ) *
          (Flyer.calculate_conversion_rate fd / 100)) ∧
      DigitalAds.calculate_total_impressions dd =
        ratTruncToZero (DigitalAds.calculate_campaign_cost dd /
          DigitalAds.calculate_cpm dd * 1000) ∧
      DigitalAds.calculate_total_clicks dd =
        ratTruncToZero ((DigitalAds.calculate_total_impressions dd : ℚ) *
          (DigitalAds.calculate_ctr dd / 100)) ∧
      DigitalAds.calculate_conversions dd =
        ratTruncToZero ((DigitalAds.calculate_total_clicks dd : ℚ) *
          (DigitalAds.calculate_conversion_rate dd / 100)) := by
  intro fd dd
  refine ⟨rfl, rfl, ?_, rfl, rfl⟩
  by_cases h : DigitalAds.calculate_cpm dd = 0
  · simp [DigitalAds.calculate_total_impressions, h, ratTruncToZero]
  · simp [DigitalAds.calculate_total_impressions, h]

/-- C6: in the exported workbook's cells (with the literal assumption
defaults `cost_per_slot = 0.15`, `bags_per_quarter = 5000`,
`num_quarters = 1`, `scan_rate = 2.0`), the Campaign Cost formula
`cost_per_slot * bags * quarters` evaluates to exactly 750 and the QR
Code Scans formula `INT(bags * scan_rate / 100)` evaluates to exactly
100. -/
theorem c6_workbook_default_scenario :
    Sheet.reportValue Sheet.roiCalculatorCells "campaign_cost" = some 750 ∧
      Sheet.reportValue Sheet.roiCalculatorCells "qr_scans" = some 100 := by
  constructor <;>
  · norm_num +decide [Sheet.reportValue, Sheet.buildReport, Sheet.topoOrder, Sheet.kahnAux,
      Sheet.readyOf, Sheet.nextRemaining, Sheet.removable, Sheet.refsIn, Sheet.cellRefs,
      Sheet.Expr.refList, Sheet.Expr.evalWith, Sheet.evalCell, Sheet.roiCalculatorCells,
      Sheet.assocFind, List.filter, List.foldl, List.all, round_eq, Int.fract, roundTo,
      roundHalfEven]

/-- C7: with conversions 20 and average revenue 25 the revenue cell
evaluates to 500, the workbook ROI formula
`IF(cost=0, 0, (revenue-cost)/cost*100)` with cost 750 evaluates to
-100/3, rounding that to 2 decimal places gives exactly -33.33, and the
flyer calculator's `calculate_roi` returns exactly -33.33 on campaign
data producing the same conversions, revenue and cost. -/
theorem c7_roi_minus_33_33 :
    Sheet.reportValue Sheet.roiScenarioCells "revenue" = some 500 ∧
      Sheet.reportValue Sheet.roiScenarioCells "roi_cell" = some (-100 / 3) ∧
      roundTo 2 (-100 / 3) = -33.33 ∧
      Flyer.calculate_roi ⟨some 5000, some 0.10, some 0.05, some 4, some 10, some 25⟩ =
        -33.33 := by
  refine ⟨?_, ?_, ?_, ?_⟩
  · norm_num +decide [Sheet.reportValue, Sheet.buildReport, Sheet.topoOrder, Sheet.kahnAux,
      Sheet.readyOf, Sheet.nextRemaining, Sheet.removable, Sheet.refsIn, Sheet.cellRefs,
      Sheet.Expr.refList, Sheet.Expr.evalWith, Sheet.evalCell, Sheet.roiScenarioCells,
      Sheet.assocFind, List.filter, List.foldl, List.all]
  · norm_num +decide [Sheet.reportValue, Sheet.buildReport, Sheet.topoOrder, Sheet.kahnAux,
      Sheet.readyOf, Sheet.nextRemaining, Sheet.removable, Sheet.refsIn, Sheet.cellRefs,
      Sheet.Expr.refList, Sheet.Expr.evalWith, Sheet.evalCell, Sheet.roiScenarioCells,
      Sheet.assocFind, List.filter, List.foldl, List.all]
  · norm_num [roundTo, roundHalfEven, Int.fract, round_eq]
  · norm_num [Flyer.calculate_roi, Flyer.calculate_total_sales, Flyer.calculate_campaign_cost,
      Flyer.calculate_total_print_cost, Flyer.calculate_total_distribution_cost,
      Flyer.calculate_num_flyers, Flyer.calculate_print_cost_per_flyer,
      Flyer.calculate_distribution_cost_per_flyer, Flyer.calculate_responses,
      Flyer.calculate_response_rate, Flyer.calculate_conversions,
      Flyer.calculate_conversion_rate, Flyer.calculate_avg_revenue_per_conversion,
      roundTo, roundHalfEven, ratTruncToZero, Int.fract, round_eq]

/-- C8 counterexample: on a malformed input (a string for `num_flyers`)
the calculator constructor succeeds — it stores the dictionary
unchanged, raising nothing — and the type error surfaces only later, at
evaluation time, when `calculate_total_print_cost` multiplies the
string by the float print cost.  The error is therefore not surfaced at
the point the literal input is defined. -/
theorem c8_deferred_type_error_counterexample :
    Dyn.initFlyerCalculator Dyn.malformedData = ⟨Dyn.malformedData⟩ ∧
      Dyn.calculate_total_print_cost (Dyn.initFlyerCalculator Dyn.malformedData) =
        .error .typeError :=
  ⟨rfl, rfl⟩

/-- C8 (amended): calculator construction performs no validation at all
— for every campaign dictionary, malformed or not, `__init__` just
stores it and cannot fail — and a non-numeric value where a numeric
literal is expected surfaces as a `TypeError` only at evaluation time,
when a metric computation first operates on it. -/
theorem c8_no_validation_at_construction :
    (∀ d : Dyn.PyDict, Dyn.initFlyerCalculator d = ⟨d⟩) ∧
      Dyn.calculate_total_print_cost (Dyn.initFlyerCalculator Dyn.malformedData) =
        .error .typeError :=
  ⟨fun _ => rfl, rfl⟩

/-- C9: constructing a report whose formula cells form a reference
cycle (a nonempty set `S` of cells, each referencing via `f` another
cell of `S`) always fails with `cyclicDependencyError` at graph-build
time, and no cell value is ever populated: the build never returns any
value table. -/
theorem c9_cycle_always_rejected (defs : List (Sheet.Addr × Sheet.CellKind))
    (S : List Sheet.Addr) (f : Sheet.Addr → Sheet.Addr) (hS : S ≠ [])
    (hsub : ∀ a ∈ S, a ∈ defs.map Prod.fst)
    (hcl : ∀ a ∈ S, f a ∈ S ∧ f a ∈ Sheet.refsIn defs a) :
    Sheet.buildReport defs = .error .cyclicDependencyError ∧
      ∀ vals, Sheet.buildReport defs ≠ .ok vals := by
  have h := Sheet.kahnAux_stuck_of_cycle defs S f hS hcl
    (defs.map Prod.fst).length (defs.map Prod.fst) hsub
  have hmain : Sheet.buildReport defs = .error .cyclicDependencyError := by
    simp only [Sheet.buildReport, Sheet.topoOrder, h]
  refine ⟨hmain, fun vals hv => ?_⟩
  rw [hmain] at hv
  exact Except.noConfusion hv

/-- C9 witness: the two-cell sheet where A references B and B
references A is rejected with `cyclicDependencyError` and produces no
value table. -/
theorem c9_cycle_always_rejected_witness :
    Sheet.buildReport
        [("A", Sheet.CellKind.formula (Sheet.Expr.ref "B")),
         ("B", Sheet.CellKind.formula (Sheet.Expr.ref "A"))] =
      .error .cyclicDependencyError ∧
      ∀ vals,
        Sheet.buildReport
            [("A", Sheet.CellKind.formula (Sheet.Expr.ref "B")),
             ("B", Sheet.CellKind.formula (Sheet.Expr.ref "A"))] ≠
          .ok vals :=
  c9_cycle_always_rejected
    [("A", Sheet.CellKind.formula (Sheet.Expr.ref "B")),
     ("B", Sheet.CellKind.formula (Sheet.Expr.ref "A"))]
    ["A", "B"] (fun a => if a = "A" then "B" else "A")
    (by decide) (by decide) (by decide)

/-- C10: `calculate_irr` ignores the numeric contents of its cash-flow
list entirely — the result is a function of the list length alone: 0
for fewer than two entries and the constant 10 otherwise. -/
theorem c10_irr_constant :
    ∀ cash_flows : List ℚ,
      Investor.calculate_irr cash_flows =
        if cash_flows.length < 2 then 0 else 10 := by
  intro cf
  have h10 : roundTo 2 10.0 = 10 := by
    norm_num [roundTo, roundHalfEven, Int.fract, round_eq]
  cases cf with
  | nil => simp [Investor.calculate_irr]
  | cons x t =>
    simp only [Investor.calculate_irr, List.cons_ne_nil, false_or]
    split_ifs with hc
    · rfl
    · exact h10
